import Mathlib

/-!
Shallow embedding of the FAIR evaluation engine (`api/evaluator.py`) and
verification of its specification.  Scores are modelled as rationals (the
source mixes Python ints and floats; every division the source performs has a
power-of-two denominator, so float arithmetic there is exact and the rational
model is faithful).  Fallible code paths (Python exceptions) are modelled with
`Except PyError`.  External collaborators that the evaluator calls but whose
source is not part of the repository (the identifier library, the metadata
utility module, the HTTP layer) are either passed in as explicit function
parameters or modelled from the specification, as noted on each definition.
-/

namespace FairEval

/-- Python runtime errors that the embedded code paths can raise. -/
inductive PyError where
  | typeError
  | nameError
  | indexError
  | valueError
  | networkError
deriving DecidableEq, Repr

/-- One normalized metadata term, as built by `Evaluator.__init__`: a row of
the dataframe with columns metadata_schema, element, text_value, qualifier.
The text value and the qualifier may be absent (Python None). -/
structure MetaRow where
  metadata_schema : String
  element : String
  text_value : Option String
  qualifier : Option String
deriving DecidableEq, Repr

/-- The evaluation context an indicator reads: the subject identifier, the
normalized term sequence and the declared access protocols. -/
structure Ctx where
  item_id : String
  metadata : List MetaRow
  access_protocols : List String
deriving DecidableEq, Repr

/-- Outcome of the (external, network-bound) OAI harvesting step performed
inside `Evaluator.__init__`: it either yields the parsed rows or raises. -/
inductive HarvestOutcome where
  | ok (rows : List MetaRow)
  | failed (e : PyError)
deriving DecidableEq, Repr

/-- Embedding of `Evaluator.__init__`.  The source sets `self.metadata = None`,
harvests only when `oai_base` is not None, and then unconditionally evaluates
`len(self.metadata)`.  With `oai_base = None` the metadata is still None and
`len(None)` raises TypeError; an exception inside harvesting propagates out of
the constructor. -/
def evaluatorInit (item_id : String) (harvest : Option HarvestOutcome) :
    Except PyError Ctx :=
  match harvest with
  | none => .error .typeError
  | some (.failed e) => .error e
  | some (.ok rows) =>
      .ok { item_id := item_id, metadata := rows,
            access_protocols := if rows.length > 0 then ["http", "oai-pmh"] else [] }

/-- Embedding of `Evaluator.get_color`: default amber, red below 50, green
above 80. -/
def get_color (points : ℤ) : String :=
  let color := "#F4D03F"
  if points < 50 then "#E74C3C"
  else if points > 80 then "#2ECC71"
  else color

/-- Embedding of `Evaluator.test_status`: default fail, then two successive
reassignments for the indeterminate and pass ranges. -/
def test_status (points : ℤ) : String :=
  let ts := "fail"
  let ts := if 50 < points ∧ points < 75 then "indeterminate" else ts
  let ts := if 75 ≤ points then "pass" else ts
  ts

/-- Modelled from the spec: `api.utils.check_metadata_terms` is called by the
evaluator but `api/utils.py` is not under src.  Matching rule of the spec: a
requirement matches a TermSet entry iff the element equals exactly, and the
requirement qualifier is null or equals the entry qualifier; comparison is
exact-string and case-sensitive.  This is the per-entry match. -/
def termMatches (r : MetaRow) (term : String) (qual : Option String) : Bool :=
  r.element == term && (qual.isNone || qual == r.qualifier)

/-- Modelled from the spec: the found flag `api.utils.check_metadata_terms`
reports for one requirement over the whole term sequence. -/
def termFound (metadata : List MetaRow) (term : String) (qual : Option String) : Bool :=
  metadata.any (fun r => termMatches r term qual)

/-- Modelled from the spec: `api.utils.check_metadata_terms` returns, for each
required (element, qualifier) pair, that pair together with its found flag. -/
def check_metadata_terms (metadata : List MetaRow)
    (terms : List (String × Option String)) :
    List ((String × Option String) × Bool) :=
  terms.map (fun t => (t, termFound metadata t.1 t.2))

/-- The generic required-term vocabulary `terms_quali` of `rda_f2_01m_generic`:
the eight Dublin Core elements, each with a null qualifier. -/
def dublinCoreTerms : List (String × Option String) :=
  [("contributor", none), ("date", none), ("description", none),
   ("identifier", none), ("publisher", none), ("rights", none),
   ("title", none), ("subject", none)]

/-- The missing-terms part of the message `rda_f2_01m_generic` builds: one
fragment per requirement whose found flag is 0. -/
def missingTermsMsg (l : List ((String × Option String) × Bool)) : String :=
  l.foldl (fun m e =>
    if e.2 then m
    else m ++ "| term: " ++ e.1.1 ++ ", qualifier: " ++ e.1.2.getD "None") ""

/-- Embedding of `Evaluator.rda_f2_01m_generic`.  The score expression of the
source is kept verbatim: `100 * (len - (len - sum(found))) / len`; the Python
true division is exact here (denominator 8), so the rational value below is
the value the source returns. -/
def rda_f2_01m_generic (ctx : Ctx) : ℚ × String :=
  let msg := "Checking Dublin Core"
  let md_term_list := check_metadata_terms ctx.metadata dublinCoreTerms
  let n : ℚ := md_term_list.length
  let f : ℚ := md_term_list.countP (fun e => e.2)
  let points : ℚ := 100 * (n - (n - f)) / n
  if points = 100 then (points, msg ++ "... All mandatory terms included")
  else (points, msg ++ "... Missing terms:" ++ missingTermsMsg md_term_list)

/-- Embedding of `Evaluator.rda_f2_01m_disciplinar`: same vocabulary and same
score expression as the generic test, only the message prefix differs. -/
def rda_f2_01m_disciplinar (ctx : Ctx) : ℚ × String :=
  let msg := "Checking Dublin Core as multidisciplinar schema"
  let md_term_list := check_metadata_terms ctx.metadata dublinCoreTerms
  let n : ℚ := md_term_list.length
  let f : ℚ := md_term_list.countP (fun e => e.2)
  let points : ℚ := 100 * (n - (n - f)) / n
  if points = 100 then (points, msg ++ "... All mandatory terms included")
  else (points, msg ++ "... Missing terms:" ++ missingTermsMsg md_term_list)

/-- Embedding of `Evaluator.rda_f2_01m`: the average of the generic and the
disciplinar scores, messages joined. -/
def rda_f2_01m (ctx : Ctx) : ℚ × String :=
  let g := rda_f2_01m_generic ctx
  let d := rda_f2_01m_disciplinar ctx
  ((g.1 + d.1) / 2, g.2 ++ " | " ++ d.2)

/-- Embedding of `Evaluator.rda_f4_01m`: binary on metadata emptiness. -/
def rda_f4_01m (ctx : Ctx) : ℚ × String :=
  if ctx.metadata.length > 0 then
    (100, "Your digital object is available via OAI-PMH harvesting protocol")
  else
    (0, "Your digital object is not available via OAI-PMH. Please, contact to DIGITAL.CSIC admins")

/-- Embedding of `Evaluator.rda_i1_01m`: binary on metadata emptiness. -/
def rda_i1_01m (ctx : Ctx) : ℚ × String :=
  if ctx.metadata.length > 0 then
    (100, "Metadata using interoperable representation (XML)")
  else
    (0, "Metadata IS NOT using interoperable representation (XML)")

/-- Embedding of `Evaluator.rda_i3_01m`: counts contributor and relation
elements; nonzero count of either gives 100. -/
def rda_i3_01m (ctx : Ctx) : ℚ × String :=
  let orcids := ctx.metadata.countP (fun r => r.element == "contributor")
  let pids := ctx.metadata.countP (fun r => r.element == "relation")
  if orcids > 0 || pids > 0 then
    (100, "Your (meta)data includes " ++ toString pids ++
      " references to other digital objects and " ++ toString orcids ++
      " references for contributors. Do you think you can improve that information?")
  else
    (0, "Your (meta)data does not include references to other digital objects or contributors. If your digital object is isolated, you can consider this OK, but it is recommendable to include such as references")

/-- Embedding of `Evaluator.rda_i3_01d`: direct forwarding to `rda_i3_01m`. -/
def rda_i3_01d (ctx : Ctx) : ℚ × String :=
  rda_i3_01m ctx

/-- The per-row loop of `Evaluator.rda_i3_02m`, over an abstract identifier
service (`detect` embeds `idutils.detect_identifier_schemes`, `norm` embeds
`idutils.normalize_pid`).  A row whose text value is None makes the detection
call raise TypeError (the library matches regular expressions against the
value).  When a row is counted as an external reference, the source next
evaluates `ref_types = ref_types + identifiers_scheme`, concatenating a str
with a list, which raises TypeError before the count is ever returned. -/
def rda_i3_02m_loop (detect : String → List String)
    (norm : String → String → String) (item_id : String) :
    List MetaRow → ℕ → Except PyError ℕ
  | [], references => .ok references
  | r :: rest, references =>
    match r.text_value with
    | none => .error .typeError
    | some v =>
      match detect v with
      | [] => rda_i3_02m_loop detect norm item_id rest references
      | s :: _ =>
        if norm v s ≠ norm item_id s then .error .typeError
        else rda_i3_02m_loop detect norm item_id rest references

/-- Embedding of `Evaluator.rda_i3_02m`.  Because counting a reference raises
(see the loop), the success branch below is reachable only with a zero count;
its reference-types interpolation is therefore left blank. -/
def rda_i3_02m (detect : String → List String)
    (norm : String → String → String) (ctx : Ctx) :
    Except PyError (ℚ × String) :=
  match rda_i3_02m_loop detect norm ctx.item_id ctx.metadata 0 with
  | .error e => .error e
  | .ok references =>
    if references > 0 then
      .ok (100, "Your (meta)data includes " ++ toString references ++
        " qualified references to other digital objects. Types: . Do you think you can improve that information?")
    else
      .ok (0, "Your (meta)data does not include qualified references to other digital objects or contributors. If your digital object is isolated, you can consider this OK, but it is recommendable to include such as references")

/-- Embedding of `Evaluator.rda_i3_02d`: direct forwarding to `rda_i3_02m`. -/
def rda_i3_02d (detect : String → List String)
    (norm : String → String → String) (ctx : Ctx) :
    Except PyError (ℚ × String) :=
  rda_i3_02m detect norm ctx

/-- Modelled from the spec: the DOI shape of `detectSchemes` in the Identifier
Service section, `10.` then digits then a slash then a nonempty suffix (the
library `idutils` is an external collaborator whose source is not under src). -/
def isDoiShape (v : String) : Bool :=
  match v.toList with
  | '1' :: '0' :: '.' :: rest =>
      let ds := rest.takeWhile Char.isDigit
      let tl := rest.dropWhile Char.isDigit
      decide (ds ≠ []) &&
        (match tl with
         | '/' :: suf => decide (suf ≠ [])
         | _ => false)
  | _ => false

/-- Modelled from the spec: `idutils.detect_identifier_schemes`, restricted to
the DOI shape used by the scenarios; never fails, empty list when nothing
matches, most specific scheme first. -/
def detect_identifier_schemes (v : String) : List String :=
  if isDoiShape v then ["doi"] else []

/-- Modelled from the spec: `idutils.normalize_pid` canonicalizes case and
strips resolver-host prefixes (written over character lists so that it is
kernel-reducible). -/
def normalize_pid (v : String) (scheme : String) : String :=
  let host := "https://doi.org/".toList
  let cs := v.toList
  let cs := if cs.take host.length = host then cs.drop host.length else cs
  let _ := scheme
  String.mk (cs.map Char.toLower)

/-- An entry of the identifier table `api.utils.find_ids_in_metadata` returns:
an identifier value and its detected scheme list, None when no scheme was
detected (the notnull filter of the source keeps the typed ones). -/
structure IdRec where
  identifier : String
  idtype : Option (List String)
deriving DecidableEq, Repr

/-- The typed-identifier fragments appended to the message of `rda_f1_01m`. -/
def typedIdsMsg (l : List IdRec) : String :=
  l.foldl (fun m e =>
    m ++ "| " ++ e.identifier ++ ": " ++ toString (e.idtype.getD []) ++ " | ") ""

/-- Embedding of `Evaluator.rda_f1_01m` over an abstract
`api.utils.find_ids_in_metadata` (that module is not under src).  In the
branch where identifiers exist but none is typed, the source iterates the
dataframe itself (`for i, e in id_list`), which yields column labels and
raises ValueError on unpacking. -/
def rda_f1_01m (findIds : List MetaRow → List String → List IdRec)
    (ctx : Ctx) : Except PyError (ℚ × String) :=
  let id_list := findIds ctx.metadata ["identifier"]
  if id_list.length > 0 then
    let typed := id_list.filter (fun e => e.idtype.isSome)
    if typed.length > 0 then
      .ok (100, "Your (meta)data is identified with this identifier(s) and type(s): "
        ++ typedIdsMsg typed)
    else .error .valueError
  else .ok (0, "Your (meta)data is not identified by persistent identifiers:")

/-- Embedding of `Evaluator.rda_f1_01d`: direct forwarding to `rda_f1_01m`. -/
def rda_f1_01d (findIds : List MetaRow → List String → List IdRec)
    (ctx : Ctx) : Except PyError (ℚ × String) :=
  rda_f1_01m findIds ctx

/-- The loop of `rda_f1_02m` over the typed identifier records: when a record
type list contains url, url is removed and, if other types remain, the score
becomes 100 and the message is rebuilt; if only url was present the message
reports a URL-only identifier; records without url leave state unchanged. -/
def rda_f1_02m_loop : List IdRec → ℚ × String → ℚ × String
  | [], acc => acc
  | e :: rest, (points, msg) =>
    match e.idtype with
    | none => rda_f1_02m_loop rest (points, msg)
    | some t =>
      if t.contains "url" then
        let t2 := t.erase "url"
        if t2.length > 0 then
          rda_f1_02m_loop rest
            (100, "Your (meta)data is identified with this identifier(s) and type(s): "
              ++ "| " ++ e.identifier ++ ": " ++ toString t2 ++ " | ")
        else
          rda_f1_02m_loop rest
            (points, "Your (meta)data is identified only by URL identifiers:| "
              ++ e.identifier ++ ": " ++ toString t2 ++ " | ")
      else rda_f1_02m_loop rest (points, msg)

/-- Embedding of `Evaluator.rda_f1_02m` over an abstract
`api.utils.find_ids_in_metadata`; the untyped-identifiers branch has the same
dataframe-iteration ValueError as `rda_f1_01m`. -/
def rda_f1_02m (findIds : List MetaRow → List String → List IdRec)
    (ctx : Ctx) : Except PyError (ℚ × String) :=
  let id_list := findIds ctx.metadata ["identifier"]
  if id_list.length > 0 then
    let typed := id_list.filter (fun e => e.idtype.isSome)
    if typed.length > 0 then .ok (rda_f1_02m_loop typed (0, ""))
    else .error .valueError
  else .ok (0, "Your (meta)data is not identified by persistent & unique identifiers:")

/-- Embedding of `Evaluator.rda_f1_02d`: direct forwarding to `rda_f1_02m`. -/
def rda_f1_02d (findIds : List MetaRow → List String → List IdRec)
    (ctx : Ctx) : Except PyError (ℚ × String) :=
  rda_f1_02m findIds ctx

/-- The license-check loop of `Evaluator.rda_r1_1_02m`:
`for row in license: lic_ok = self.check_url(row[0])`.  Each pass indexes the
license value at 0, so only its FIRST character reaches `check_url`; a None
value raises TypeError, an empty string raises IndexError; the flag keeps the
outcome of the last pass only, and stays unset when the list is empty. -/
def licenseLoop (checkUrl : String → Bool) :
    List (Option String) → Option Bool → Except PyError (Option Bool)
  | [], acc => .ok acc
  | none :: _, _ => .error .typeError
  | some v :: rest, _ =>
    match v.toList with
    | [] => .error .indexError
    | c :: _ => licenseLoop checkUrl rest (some (checkUrl (String.mk [c])))

/-- Embedding of `Evaluator.rda_r1_1_02m` over an abstract `check_url` (the
HTTP layer): collects the license term values, runs the loop above, then
evaluates `if len(license) and lic_ok` (Python short-circuit: with an empty
list the unbound flag is never read). -/
def rda_r1_1_02m (checkUrl : String → Bool) (ctx : Ctx) :
    Except PyError (ℚ × String) :=
  let license := (ctx.metadata.filter (fun r => r.element == "license")).map
    (fun r => r.text_value)
  match licenseLoop checkUrl license none with
  | .error e => .error e
  | .ok licOk =>
    if license.length ≠ 0 && licOk.getD false then
      .ok (100, "Your license refers to a standard reuse license")
    else
      .ok (0, "Your license is NOT included or DOES NOT refer to a standard reuse license")

/-- The argument record of one `requests.get` call as `Evaluator.check_url`
issues it: method GET, certificate verification off, and no timeout argument
passed. -/
structure RequestArgs where
  url : String
  httpMethod : String
  verify : Bool
  timeout : Option ℚ
deriving DecidableEq, Repr

/-- Outcome of an HTTP request: a status code, or a raised exception
(connection error, timeout, invalid URL). -/
inductive HttpOutcome where
  | status (code : ℤ)
  | exn
deriving DecidableEq, Repr

/-- The request `Evaluator.check_url` builds for a given URL: a GET with
`verify=False` and no timeout argument. -/
def check_url_request (url : String) : RequestArgs :=
  { url := url, httpMethod := "GET", verify := false, timeout := none }

/-- Embedding of `Evaluator.check_url` over an abstract HTTP layer: true
exactly on status 200; any other status or any raised exception gives false;
the try/except swallows every exception, so the function is total. -/
def check_url (http : RequestArgs → HttpOutcome) (url : String) : Bool :=
  match http (check_url_request url) with
  | .status code => code == 200
  | .exn => false

/-- The required-term vocabulary `terms_quali` of `rda_a1_02d`: access and
rights, each with an empty-string qualifier. -/
def accessRightsTerms : List (String × Option String) :=
  [("access", some ""), ("rights", some "")]

/-- Embedding of `Evaluator.rda_a1_02d`.  When at least one requirement is
found, the message interpolation of the source reads the bare name
`metadata`, which is bound neither in the method nor at module level, so the
first found requirement raises NameError; only with no match does the method
return its initial (0, message) pair. -/
def rda_a1_02d (ctx : Ctx) : Except PyError (ℚ × String) :=
  let md_term_list := check_metadata_terms ctx.metadata accessRightsTerms
  if md_term_list.countP (fun e => e.2) > 0 then .error .nameError
  else .ok (0, "Checking Dublin Core")

/-- The Dublin Core element namespace as the normalizer stores it (braces
stripped; the exact schema string is irrelevant to every claim below). -/
def dcSchema : String := "http://purl.org/dc/elements/1.1/"

/-- A context with an empty term sequence (Scenario A of the spec). -/
def emptyCtx : Ctx :=
  { item_id := "10.1/abc", metadata := [], access_protocols := [] }

/-- A context whose metadata carries exactly one title term. -/
def oneTitleCtx : Ctx :=
  { item_id := "10.1/abc",
    metadata := [{ metadata_schema := dcSchema, element := "title",
                   text_value := some "A dataset", qualifier := none }],
    access_protocols := [] }

/-- Scenario D, external case: subject 10.1/abc, one relation term valued
10.1/xyz. -/
def scenarioDextCtx : Ctx :=
  { item_id := "10.1/abc",
    metadata := [{ metadata_schema := dcSchema, element := "relation",
                   text_value := some "10.1/xyz", qualifier := none }],
    access_protocols := [] }

/-- Scenario D, self-reference case: the relation term value equals the
subject identifier. -/
def scenarioDselfCtx : Ctx :=
  { item_id := "10.1/abc",
    metadata := [{ metadata_schema := dcSchema, element := "relation",
                   text_value := some "10.1/abc", qualifier := none }],
    access_protocols := [] }

/-- A standard license URL used in Scenario C. -/
def licUrl : String := "http://creativecommons.org/licenses/by/4.0"

/-- An HTTP-resolvability oracle under which exactly the license URL of
Scenario C resolves with status 200. -/
def resolvesOnlyLicUrl : String → Bool := fun s => s == licUrl

/-- Scenario C context: one license term valued with the resolvable URL. -/
def licenseCtx : Ctx :=
  { item_id := "10.1/abc",
    metadata := [{ metadata_schema := dcSchema, element := "license",
                   text_value := some licUrl, qualifier := none }],
    access_protocols := [] }

/-- Scenario C context with the license term removed. -/
def noLicenseCtx : Ctx :=
  { item_id := "10.1/abc",
    metadata := [{ metadata_schema := dcSchema, element := "title",
                   text_value := some "A dataset", qualifier := none }],
    access_protocols := [] }

/-- A context holding one rights term with an empty-string qualifier, so that
the access/rights requirement of `rda_a1_02d` is found. -/
def rightsCtx : Ctx :=
  { item_id := "10.1/abc",
    metadata := [{ metadata_schema := dcSchema, element := "rights",
                   text_value := some "openAccess", qualifier := some "" }],
    access_protocols := [] }

/-- A context whose metadata holds all eight Dublin Core elements
(Scenario B). -/
def fullDcCtx : Ctx :=
  { item_id := "10.1/abc",
    metadata := dublinCoreTerms.map (fun t =>
      { metadata_schema := dcSchema, element := t.1,
        text_value := some "v", qualifier := none }),
    access_protocols := [] }

/-- C2: for every integer score in [0,100], `test_status` returns fail when
the score is at most 50, indeterminate strictly between 50 and 75, and pass
from 75 up; in particular at 49, 50, 74 and 75. -/
theorem test_status_thresholds (s : ℤ) (h0 : 0 ≤ s) (h1 : s ≤ 100) :
    (s ≤ 50 → test_status s = "fail") ∧
    (50 < s → s < 75 → test_status s = "indeterminate") ∧
    (75 ≤ s → test_status s = "pass") ∧
    test_status 49 = "fail" ∧ test_status 50 = "fail" ∧
    test_status 74 = "indeterminate" ∧ test_status 75 = "pass" := by
  refine ⟨fun h => ?_, fun ha hb => ?_, fun h => ?_,
    by decide, by decide, by decide, by decide⟩ <;>
    · simp only [test_status]
      split_ifs <;> first | rfl | omega

theorem test_status_thresholds_check :
    test_status 49 = "fail" ∧ test_status 75 = "pass" :=
  ⟨(test_status_thresholds 49 (by decide) (by decide)).1 (by decide),
   (test_status_thresholds 75 (by decide) (by decide)).2.2.1 (by decide)⟩

/-- C3: for every integer score in [0,100], `get_color` returns red below 50,
amber from 50 to 80, green above 80; the color boundary at 50 and the status
boundary there are placed differently (50 is a failing score yet amber, 75 is
a passing score yet amber). -/
theorem get_color_thresholds (s : ℤ) (h0 : 0 ≤ s) (h1 : s ≤ 100) :
    (s < 50 → get_color s = "#E74C3C") ∧
    (50 ≤ s → s ≤ 80 → get_color s = "#F4D03F") ∧
    (80 < s → get_color s = "#2ECC71") ∧
    get_color 49 = "#E74C3C" ∧ get_color 50 = "#F4D03F" ∧
    get_color 80 = "#F4D03F" ∧ get_color 81 = "#2ECC71" ∧
    (test_status 50 = "fail" ∧ get_color 50 ≠ "#E74C3C") ∧
    (test_status 75 = "pass" ∧ get_color 75 ≠ "#2ECC71") := by
  refine ⟨fun h => ?_, fun ha hb => ?_, fun h => ?_,
    by decide, by decide, by decide, by decide, by decide, by decide⟩ <;>
    · simp only [get_color]
      split_ifs <;> first | rfl | omega

theorem get_color_thresholds_check :
    get_color 49 = "#E74C3C" ∧ get_color 81 = "#2ECC71" :=
  ⟨(get_color_thresholds 49 (by decide) (by decide)).1 (by decide),
   (get_color_thresholds 81 (by decide) (by decide)).2.2.1 (by decide)⟩

/-- C1: on Scenario D the qualified-reference indicator does not return
(100, message) for the external reference 10.1/xyz: the moment the row
qualifies to be counted, the source concatenates the string ref_types with
the scheme list and raises TypeError.  The self-reference case 10.1/abc is
excluded as specified and returns 0 with its message. -/
theorem rda_i3_02m_scenario_d :
    detect_identifier_schemes "10.1/xyz" = ["doi"] ∧
    normalize_pid "10.1/xyz" "doi" ≠ normalize_pid "10.1/abc" "doi" ∧
    rda_i3_02m detect_identifier_schemes normalize_pid scenarioDextCtx =
      .error .typeError ∧
    rda_i3_02m detect_identifier_schemes normalize_pid scenarioDselfCtx =
      .ok (0, "Your (meta)data does not include qualified references to other digital objects or contributors. If your digital object is isolated, you can consider this OK, but it is recommendable to include such as references") :=
  ⟨rfl, by decide, rfl, rfl⟩

/-- Length of the Dublin Core requirement list after checking: eight. -/
lemma check_dc_length (md : List MetaRow) :
    (check_metadata_terms md dublinCoreTerms).length = 8 := by
  simp [check_metadata_terms, dublinCoreTerms]

/-- The score component of `rda_f2_01m_generic` in closed form. -/
lemma rda_f2_generic_fst (ctx : Ctx) :
    (rda_f2_01m_generic ctx).1 =
      100 * ((check_metadata_terms ctx.metadata dublinCoreTerms).countP
        (fun e => e.2) : ℚ) / 8 := by
  simp only [rda_f2_01m_generic, check_dc_length]
  split <;> · push_cast; ring

/-- The score component of `rda_f2_01m_disciplinar` equals the generic one. -/
lemma rda_f2_disciplinar_fst (ctx : Ctx) :
    (rda_f2_01m_disciplinar ctx).1 = (rda_f2_01m_generic ctx).1 := by
  rw [rda_f2_generic_fst]
  simp only [rda_f2_01m_disciplinar, check_dc_length]
  split <;> · push_cast; ring

/-- C4 (counterexample): with exactly one of the eight required Dublin Core
terms present, the returned coverage score is 25/2 = 12.5, which is not an
integer; the source never rounds. -/
theorem rda_f2_01m_generic_fractional_score :
    (rda_f2_01m_generic oneTitleCtx).1 = 25 / 2 ∧
    ¬ ∃ z : ℤ, (rda_f2_01m_generic oneTitleCtx).1 = (z : ℚ) := by
  have h : (rda_f2_01m_generic oneTitleCtx).1 = 25 / 2 := by
    rw [rda_f2_generic_fst]
    rw [show (check_metadata_terms oneTitleCtx.metadata dublinCoreTerms).countP
      (fun e => e.2) = 1 from by decide]
    norm_num
  refine ⟨h, ?_⟩
  rintro ⟨z, hz⟩
  rw [h] at hz
  have h2 : (25 : ℚ) = 2 * (z : ℚ) := by linarith
  have h3 : (25 : ℤ) = 2 * z := by exact_mod_cast h2
  omega

/-- C4 (amended): the coverage score equals the exact rational
100 * matched / 8 with no rounding anywhere, lies in [0,100], is 100 iff every
required pair is matched, and `rda_f2_01m` emits the same score because the
disciplinar check is identical to the generic one. -/
theorem rda_f2_01m_generic_coverage (ctx : Ctx) :
    (rda_f2_01m_generic ctx).1 =
      100 * ((check_metadata_terms ctx.metadata dublinCoreTerms).countP
        (fun e => e.2) : ℚ) / 8 ∧
    0 ≤ (rda_f2_01m_generic ctx).1 ∧ (rda_f2_01m_generic ctx).1 ≤ 100 ∧
    ((rda_f2_01m_generic ctx).1 = 100 ↔
      ∀ t ∈ dublinCoreTerms, termFound ctx.metadata t.1 t.2 = true) ∧
    (rda_f2_01m ctx).1 = (rda_f2_01m_generic ctx).1 := by
  have hfst := rda_f2_generic_fst ctx
  have hle : (check_metadata_terms ctx.metadata dublinCoreTerms).countP
      (fun e => e.2) ≤ 8 := by
    have h := List.countP_le_length (fun (e : (String × Option String) × Bool) => e.2)
      (l := check_metadata_terms ctx.metadata dublinCoreTerms)
    rwa [check_dc_length] at h
  have hleq : ((check_metadata_terms ctx.metadata dublinCoreTerms).countP
      (fun e => e.2) : ℚ) ≤ 8 := by exact_mod_cast hle
  have hge : (0 : ℚ) ≤ ((check_metadata_terms ctx.metadata dublinCoreTerms).countP
      (fun e => e.2) : ℚ) := by positivity
  refine ⟨hfst, ?_, ?_, ?_, ?_⟩
  · rw [hfst]; positivity
  · rw [hfst, div_le_iff₀ (by norm_num : (0:ℚ) < 8)]; linarith
  · rw [hfst]
    constructor
    · intro h
      have hc : ((check_metadata_terms ctx.metadata dublinCoreTerms).countP
          (fun e => e.2) : ℚ) = 8 := by
        field_simp at h; linarith
      have hc8 : (check_metadata_terms ctx.metadata dublinCoreTerms).countP
          (fun e => e.2) = 8 := by exact_mod_cast hc
      have hlen : (check_metadata_terms ctx.metadata dublinCoreTerms).countP
          (fun e => e.2) =
          (check_metadata_terms ctx.metadata dublinCoreTerms).length := by
        rw [hc8, check_dc_length]
      have hall := List.countP_eq_length.mp hlen
      intro t ht
      have hmem : (t, termFound ctx.metadata t.1 t.2) ∈
          check_metadata_terms ctx.metadata dublinCoreTerms := by
        simp only [check_metadata_terms]
        exact List.mem_map_of_mem _ ht
      simpa using hall _ hmem
    · intro h
      have hlen : (check_metadata_terms ctx.metadata dublinCoreTerms).countP
          (fun e => e.2) =
          (check_metadata_terms ctx.metadata dublinCoreTerms).length := by
        rw [List.countP_eq_length]
        intro e he
        simp only [check_metadata_terms, List.mem_map] at he
        obtain ⟨t, ht, rfl⟩ := he
        simpa using h t ht
      rw [hlen, check_dc_length]; norm_num
  · show ((rda_f2_01m_generic ctx).1 + (rda_f2_01m_disciplinar ctx).1) / 2 =
      (rda_f2_01m_generic ctx).1
    rw [rda_f2_disciplinar_fst]; ring

/-- Evaluation of the generic description indicator on the empty context:
score 0 and a non-empty message. -/
lemma rda_f2_generic_empty_eval :
    (rda_f2_01m_generic emptyCtx).1 = 0 ∧ (rda_f2_01m_generic emptyCtx).2 ≠ "" := by
  constructor
  · rw [rda_f2_generic_fst]
    rw [show (check_metadata_terms emptyCtx.metadata dublinCoreTerms).countP
      (fun e => e.2) = 0 from by decide]
    norm_num
  · simp only [rda_f2_01m_generic]
    split <;> decide

/-- C5: the constructor does not convert a failed harvest into an empty
TermSet.  With no OAI endpoint the metadata stays None and `len(None)` raises
TypeError; a harvesting exception propagates out of the constructor.  For a
context that does hold an empty TermSet, every term-dependent indicator
returns score 0 with a non-empty message. -/
theorem evaluatorInit_failure_behaviour :
    evaluatorInit "10.1/abc" none = .error .typeError ∧
    evaluatorInit "10.1/abc" (some (.failed .networkError)) =
      .error .networkError ∧
    (rda_f2_01m_generic emptyCtx).1 = 0 ∧ (rda_f2_01m_generic emptyCtx).2 ≠ "" ∧
    (rda_f4_01m emptyCtx).1 = 0 ∧ (rda_f4_01m emptyCtx).2 ≠ "" ∧
    (rda_i1_01m emptyCtx).1 = 0 ∧ (rda_i1_01m emptyCtx).2 ≠ "" ∧
    (rda_i3_01m emptyCtx).1 = 0 ∧ (rda_i3_01m emptyCtx).2 ≠ "" :=
  ⟨rfl, rfl, rda_f2_generic_empty_eval.1, rda_f2_generic_empty_eval.2,
   by decide, by decide, by decide, by decide, by decide, by decide⟩

/-- C6: the license-standardness indicator indexes each license value at 0, so
`check_url` receives only the first character of the value.  Under an HTTP
oracle where the full license URL (and nothing else) resolves with status 200,
the indicator still returns 0; with no license term it returns 0 as well. -/
theorem rda_r1_1_02m_first_char_defect :
    resolvesOnlyLicUrl licUrl = true ∧
    rda_r1_1_02m resolvesOnlyLicUrl licenseCtx =
      .ok (0, "Your license is NOT included or DOES NOT refer to a standard reuse license") ∧
    rda_r1_1_02m resolvesOnlyLicUrl noLicenseCtx =
      .ok (0, "Your license is NOT included or DOES NOT refer to a standard reuse license") :=
  ⟨rfl, rfl, rfl⟩

/-- C7: each data-object indicator that delegates to its metadata counterpart
returns exactly the counterpart result, for every context and every choice of
the external identifier services: the -D bodies are pure forwarding. -/
theorem data_indicators_delegate
    (findIds : List MetaRow → List String → List IdRec)
    (detect : String → List String) (norm : String → String → String)
    (ctx : Ctx) :
    rda_f1_01d findIds ctx = rda_f1_01m findIds ctx ∧
    rda_f1_02d findIds ctx = rda_f1_02m findIds ctx ∧
    rda_i3_01d ctx = rda_i3_01m ctx ∧
    rda_i3_02d detect norm ctx = rda_i3_02m detect norm ctx :=
  ⟨rfl, rfl, rfl, rfl⟩

/-- C8 (counterexample): the GET request `check_url` issues carries no timeout
argument, against the claim that the request carries an explicit timeout. -/
theorem check_url_timeout_missing :
    (check_url_request "http://example.org").timeout = none := rfl

/-- C8 (amended): `check_url` returns true iff the GET yields status 200,
false on any other status and on any raised exception (it is total, so no
exception escapes), and the request it issues is a GET with verification off
and NO timeout argument. -/
theorem check_url_contract (http : RequestArgs → HttpOutcome) (url : String) :
    (check_url http url = true ↔ http (check_url_request url) = .status 200) ∧
    (∀ c : ℤ, c ≠ 200 → http (check_url_request url) = .status c →
      check_url http url = false) ∧
    (http (check_url_request url) = .exn → check_url http url = false) ∧
    (check_url_request url).httpMethod = "GET" ∧
    (check_url_request url).verify = false ∧
    (check_url_request url).timeout = none := by
  refine ⟨?_, ?_, ?_, rfl, rfl, rfl⟩
  · unfold check_url
    cases h : http (check_url_request url) with
    | status code => simp
    | exn => simp
  · intro c hc h
    unfold check_url
    rw [h]
    simpa using hc
  · intro h
    unfold check_url
    rw [h]

/-- C9: the registration and representation-format indicators are binary on
metadata emptiness: a non-empty TermSet gives 100 with a message, an empty one
gives 0 with a message. -/
theorem emptiness_binary_indicators (ctx : Ctx) :
    (ctx.metadata.length > 0 →
      rda_f4_01m ctx =
        (100, "Your digital object is available via OAI-PMH harvesting protocol") ∧
      rda_i1_01m ctx =
        (100, "Metadata using interoperable representation (XML)")) ∧
    (ctx.metadata.length = 0 →
      rda_f4_01m ctx =
        (0, "Your digital object is not available via OAI-PMH. Please, contact to DIGITAL.CSIC admins") ∧
      rda_i1_01m ctx =
        (0, "Metadata IS NOT using interoperable representation (XML)")) := by
  constructor
  · intro h
    exact ⟨by unfold rda_f4_01m; rw [if_pos h], by unfold rda_i1_01m; rw [if_pos h]⟩
  · intro h
    have h2 : ¬ ctx.metadata.length > 0 := by omega
    exact ⟨by unfold rda_f4_01m; rw [if_neg h2], by unfold rda_i1_01m; rw [if_neg h2]⟩

/-- C10: whenever the access/rights check finds at least one matching term,
`rda_a1_02d` raises NameError (its message branch reads the unbound name
metadata); it returns (0, message) exactly when no requirement matches. -/
theorem rda_a1_02d_unbound_name (ctx : Ctx) :
    ((∃ e ∈ check_metadata_terms ctx.metadata accessRightsTerms, e.2 = true) →
      rda_a1_02d ctx = .error .nameError) ∧
    ((∀ e ∈ check_metadata_terms ctx.metadata accessRightsTerms, e.2 = false) →
      rda_a1_02d ctx = .ok (0, "Checking Dublin Core")) := by
  constructor
  · rintro ⟨e, he, h2⟩
    unfold rda_a1_02d
    rw [if_pos]
    exact List.countP_pos_iff.mpr ⟨e, he, by simp [h2]⟩
  · intro h
    unfold rda_a1_02d
    rw [if_neg]
    simp only [gt_iff_lt, not_lt, Nat.le_zero, List.countP_eq_zero]
    intro e he
    simp [h e he]

end FairEval
